import Mathlib

/-!
Shallow embedding of the data-transformation core of `src/index.py`
(a Streamlit dashboard over two pandas tables, IDEB and SAEB).

Modelling conventions:
* Python strings are lists of Unicode codepoints (`Str := List Nat`);
  `str` turns a Lean string literal into this representation.
* A pandas cell of a float column is `Option ℚ`: `none` models `NaN`
  (produced by `pd.to_numeric(errors='coerce')` on invalid input), and
  IEEE comparisons with `NaN` are false, which the model reproduces.
* A dataframe is a `List Row`; each `Row` carries the columns used by the
  claims (`INEP`, `ESCOLA`, `REGIÃO`, `EDIÇÃO`, `ETAPA`, `COMP_CURRICULAR`
  and the numeric metric column, which stands for `IDEB` respectively
  `PROFICIENCIA_MEDIA`).
* Operations that pandas performs in place are modelled as explicit pairs
  `(state of the argument after the call, returned value)`.
-/

namespace RelatoriosIdeb

/-- Python strings, modelled as lists of Unicode codepoints. -/
abbrev Str := List Nat

/-- Codepoints of a Lean string literal, for writing concrete `Str` values. -/
def str (s : String) : Str := s.data.map Char.toNat

/-- ASCII whitespace, the characters removed by Python `str.strip()`. -/
def isSp (c : Nat) : Bool := decide (c = 32 ∨ c = 9 ∨ c = 10 ∨ c = 13 ∨ c = 11 ∨ c = 12)

/-- One character of Python `str.upper()` (ASCII range). -/
def upperCh (c : Nat) : Nat := if 97 ≤ c ∧ c ≤ 122 then c - 32 else c

/-- Python `str.upper()`. -/
def pyUpper (s : Str) : Str := s.map upperCh

/-- Python `str.strip()`: drop whitespace from both ends. -/
def pyStrip (s : Str) : Str := ((s.dropWhile isSp).reverse.dropWhile isSp).reverse

/-- Dropping trailing whitespace only (helper for reasoning about `pyStrip`). -/
def dwr (s : Str) : Str := (s.reverse.dropWhile isSp).reverse

/-- One row of either table, with the columns the claims are about.
`metric` is the numeric column (`IDEB` or `PROFICIENCIA_MEDIA`); the other
columns are strings after the post-load coercion of `index.py` lines 40-47. -/
structure Row where
  inep : Str
  escola : Str
  regiao : Str
  edicao : Str
  etapa : Str
  comp : Str
  metric : Option ℚ
deriving DecidableEq

/-- Python `valor > 0` where `valor` is a float that may be `NaN` (`none`):
a comparison with `NaN` is false. -/
def pyGtZero (valor : Option ℚ) : Bool :=
  match valor with
  | some q => decide (0 < q)
  | none => false

/-- Python `valor < 0` with the same `NaN` convention. -/
def pyLtZero (valor : Option ℚ) : Bool :=
  match valor with
  | some q => decide (q < 0)
  | none => false

/-- `formatar_variacao` (index.py lines 54-64), restricted to the
classification it computes: the `(sinal, cor)` pair chosen by the branches
`valor > 0`, `valor < 0`, else. The surrounding HTML f-string only embeds
this pair and the number, so the pair is the whole classification. -/
def formatar_variacao (valor : Option ℚ) : Str × Str :=
  if pyGtZero valor then (str (r"▲"), str (r"green"))
  else if pyLtZero valor then (str (r"▼"), str (r"red"))
  else (str (r""), str (r"blue"))

/-- One record of the `variacao_data` list built by the loops at
index.py lines 157-172 (tab1) and 247-262 (tab2).  The metric fields are
named generically; in tab1 they are the `IDEB` columns, in tab2 the
`Proficiência` columns. -/
structure DeltaRecord where
  comparacao : Str
  edicaoAtual : Str
  metricAtual : Option ℚ
  edicaoAnterior : Str
  metricAnterior : Option ℚ
  variacao : Option ℚ
deriving DecidableEq

/-- Float subtraction with `NaN` (`none`) propagation, as in
`ideb_atual - ideb_anterior` on possibly-NaN floats. -/
def subOpt (a b : Option ℚ) : Option ℚ :=
  match a, b with
  | some x, some y => some (x - y)
  | _, _ => none

/-- The record appended for the pair (row `i-1`, row `i`) of the loop body:
comparison label `f"{edicao_atual} - {edicao_anterior}"`, both editions,
both metric values and their difference. -/
def mkVariacao (anterior atual : Row) : DeltaRecord :=
  { comparacao := atual.edicao ++ str (r" - ") ++ anterior.edicao
    edicaoAtual := atual.edicao
    metricAtual := atual.metric
    edicaoAnterior := anterior.edicao
    metricAnterior := anterior.metric
    variacao := subOpt atual.metric anterior.metric }

/-- The loop `for i in range(1, len(df))` of index.py lines 158-172 / 248-262:
one record per adjacent pair of rows of the (already filtered and
edition-sorted) table. -/
def variacao_data : List Row → List DeltaRecord
  | anterior :: atual :: rest => mkVariacao anterior atual :: variacao_data (atual :: rest)
  | _ => []

/-- Demo rows for witnesses: the spec scenario (edition 2017 value 5.0,
edition 2019 value 6.5). -/
def demoRow2017 : Row :=
  { inep := str (r"1"), escola := str (r"E1"), regiao := str (r"NORTE")
    edicao := str (r"2017"), etapa := str (r"AI"), comp := str (r"-")
    metric := some 5 }

def demoRow2019 : Row :=
  { inep := str (r"1"), escola := str (r"E1"), regiao := str (r"NORTE")
    edicao := str (r"2019"), etapa := str (r"AI"), comp := str (r"-")
    metric := some (Rat.divInt 13 2) }

/-- A row whose metric is missing (`NaN`). -/
def demoRowSemMetric : Row :=
  { inep := str (r"2"), escola := str (r"E2"), regiao := str (r"NORTE")
    edicao := str (r"2015"), etapa := str (r"AI"), comp := str (r"-")
    metric := none }

/-- Lexicographic (codepoint) order on Python strings, the comparison pandas
uses when sorting an object column of strings (`sort_values(by='EDIÇÃO')`,
index.py lines 135 and 224). -/
def lexLe : Str → Str → Bool
  | [], _ => true
  | _ :: _, [] => false
  | a :: as, b :: bs => if a < b then true else if b < a then false else lexLe as bs

/-- The integer value of a digit string (`int(x)` on, e.g., an edition). -/
def digitsVal (l : Str) : Nat := l.foldl (fun a c => 10 * a + (c - 48)) 0

/-- Insert into a sorted list (sorting helper). -/
def insOrd {α : Type} (le : α → α → Bool) (a : α) : List α → List α
  | [] => [a]
  | b :: l => if le a b then a :: b :: l else b :: insOrd le a l

/-- Comparison sort used to model the sorting done by pandas.  `sort_values`
makes no tie-order promise (its default quicksort is unstable), so any sorted
rearrangement is a faithful model; the claims only concern key order. -/
def sortOrd {α : Type} (le : α → α → Bool) : List α → List α
  | [] => []
  | a :: l => insOrd le a (sortOrd le l)

/-- `df.sort_values(by='EDIÇÃO')`: sort the rows by the edition string. -/
def sortByEdicao (t : List Row) : List Row :=
  sortOrd (fun r s => lexLe r.edicao s.edicao) t

/-- The tab1 filter pipeline (index.py lines 124-135): school selector with
the `TODAS` sentinel, then the stage equality, then the edition sort.  The
source sorts inside the non-empty branch; sorting an empty list is the empty
list, so the model sorts unconditionally. -/
def filtroIdeb (escolaSel etapaSel : Str) (t : List Row) : List Row :=
  let t1 := if escolaSel = str (r"TODAS") then t else t.filter (fun r => r.escola == escolaSel)
  let t2 := t1.filter (fun r => r.etapa == etapaSel)
  sortByEdicao t2

/-- The tab2 filter pipeline (index.py lines 212-224): school selector with
the `TODAS` sentinel, then stage and curricular-component equality, then the
edition sort. -/
def filtroSaeb (escolaSel etapaSel compSel : Str) (t : List Row) : List Row :=
  let t1 := if escolaSel = str (r"TODAS") then t else t.filter (fun r => r.escola == escolaSel)
  let t2 := t1.filter (fun r => r.etapa == etapaSel && r.comp == compSel)
  sortByEdicao t2

/-- Two rows whose editions are digit strings of different lengths; on them
lexicographic string order and integer order disagree. -/
def rowEd9 : Row :=
  { inep := str (r"1"), escola := str (r"E1"), regiao := str (r"NORTE")
    edicao := str (r"9"), etapa := str (r"AI"), comp := str (r"-")
    metric := none }

def rowEd10 : Row :=
  { inep := str (r"2"), escola := str (r"E2"), regiao := str (r"NORTE")
    edicao := str (r"10"), etapa := str (r"AI"), comp := str (r"-")
    metric := none }

/-- `str.strip().str.upper()` applied to one region value, as in
`padronizar_regioes` (index.py line 295).  The preceding `astype(str)` is the
identity on the string-valued model. -/
def normalizaRegiao (s : Str) : Str := pyUpper (pyStrip s)

/-- The in-place column assignment of index.py line 295 applied to one row:
only the region column changes. -/
def normRow (r : Row) : Row := { r with regiao := normalizaRegiao r.regiao }

/-- The row filter of index.py line 296: keep the rows whose (already
normalized) region is not in `['NAN', '', 'NaN']`. -/
def keepRegiao (r : Row) : Bool :=
  !(r.regiao == str (r"NAN") || r.regiao == str (r"") || r.regiao == str (r"NaN"))

/-- `padronizar_regioes` (index.py lines 293-298) with its side effect made
explicit.  The column assignment `df['REGIÃO'] = ...` mutates the dataframe
passed in, so the first component is the state of the argument after the
call (all rows, region column normalized); the second component is the value
returned (the mutated rows with the invalid-region rows filtered out). -/
def padronizar_regioes_mut (t : List Row) : List Row × List Row :=
  (t.map normRow, (t.map normRow).filter keepRegiao)

/-- The value returned by `padronizar_regioes`, which the script rebinds to
`df_ideb` / `df_saeb` for the region view (index.py lines 300-301). -/
def padronizar_regioes (t : List Row) : List Row := (padronizar_regioes_mut t).2

/-- Rows with region values exercising the normalizer: the spec scenario
value `" nan "`, its mixed-case variant, and a surviving row. -/
def nanRowSpaces : Row :=
  { inep := str (r"1"), escola := str (r"E1"), regiao := str (r" nan ")
    edicao := str (r"2017"), etapa := str (r"AI"), comp := str (r"-")
    metric := none }

def nanRowMixed : Row :=
  { inep := str (r"1"), escola := str (r"E1"), regiao := str (r" nAn ")
    edicao := str (r"2017"), etapa := str (r"AI"), comp := str (r"-")
    metric := none }

def sulRow : Row :=
  { inep := str (r"1"), escola := str (r"E1"), regiao := str (r" sul ")
    edicao := str (r"2017"), etapa := str (r"AI"), comp := str (r"-")
    metric := none }

/-- `sulRow` after the normalization pass. -/
def sulRowNorm : Row := { sulRow with regiao := str (r"SUL") }

/-- pandas `'mean'` aggregation of a float column: the mean of the
non-missing values, `NaN` (`none`) when the group has no non-missing value. -/
def meanOpt (l : List (Option ℚ)) : Option ℚ :=
  let v := l.filterMap id
  if v.length = 0 then none else some (v.sum / (v.length : ℚ))

/-- numpy round-half-to-even of `100 * q`, computed exactly with integer
floor division; this is `Series.round(2)` on the rational model. -/
def roundHalfEven100 (q : ℚ) : ℤ :=
  let n : ℤ := q.num * 100
  let d : ℤ := (q.den : ℤ)
  let f : ℤ := Int.fdiv n d
  let rem : ℤ := n - d * f
  if 2 * rem < d then f
  else if d < 2 * rem then f + 1
  else if f % 2 = 0 then f else f + 1

/-- `Series.round(2)`: round to 2 decimal places. -/
def round2 (q : ℚ) : ℚ := Rat.divInt (roundHalfEven100 q) 100

/-- One row of the `df_medias` table (index.py lines 353-358 and 415-420):
the group key (`REGIÃO` or `EDIÇÃO`), the rounded mean `MEDIA` and the
school count `QTD_ESCOLAS`. -/
structure MediaRow where
  chave : Str
  media : Option ℚ
  qtdEscolas : Nat
deriving DecidableEq

/-- `df_filtrado.groupby(key, as_index=False).agg({metric: 'mean',
'ESCOLA': pd.Series.nunique})` followed by `round(2)` on the mean column.
pandas sorts the group keys (strings, hence lexicographically); `nunique`
counts the distinct `ESCOLA` values — the school names — of the group. -/
def groupbyMedias (key : Row → Str) (t : List Row) : List MediaRow :=
  (sortOrd lexLe ((t.map key).dedup)).map (fun k =>
    { chave := k
      media := (meanOpt ((t.filter (fun r => key r == k)).map (fun r => r.metric))).map round2
      qtdEscolas := ((t.filter (fun r => key r == k)).map (fun r => r.escola)).dedup.length })

/-- The spec scenario table for the aggregator: two rows in region NORTE
(values 6.0 and 7.0, distinct schools), one row in region SUL (value 5.0). -/
def demoNorteA : Row :=
  { inep := str (r"1"), escola := str (r"EA"), regiao := str (r"NORTE")
    edicao := str (r"2019"), etapa := str (r"AI"), comp := str (r"-")
    metric := some 6 }

def demoNorteB : Row :=
  { inep := str (r"2"), escola := str (r"EB"), regiao := str (r"NORTE")
    edicao := str (r"2019"), etapa := str (r"AI"), comp := str (r"-")
    metric := some 7 }

def demoSulC : Row :=
  { inep := str (r"3"), escola := str (r"EC"), regiao := str (r"SUL")
    edicao := str (r"2019"), etapa := str (r"AI"), comp := str (r"-")
    metric := some 5 }

def demoTable : List Row := [demoNorteA, demoNorteB, demoSulC]

/-- The aggregation rows the scenario expects. -/
def demoNorteMedia : MediaRow :=
  { chave := str (r"NORTE"), media := some (Rat.divInt 13 2), qtdEscolas := 2 }

def demoSulMedia : MediaRow :=
  { chave := str (r"SUL"), media := some 5, qtdEscolas := 1 }

/-- Two rows with distinct school identifiers (`INEP` "1" and "2") but the
same school name; they separate name counting from identifier counting. -/
def ctRowA : Row :=
  { inep := str (r"1"), escola := str (r"E"), regiao := str (r"NORTE")
    edicao := str (r"2019"), etapa := str (r"AI"), comp := str (r"-")
    metric := some 6 }

def ctRowB : Row :=
  { inep := str (r"2"), escola := str (r"E"), regiao := str (r"NORTE")
    edicao := str (r"2019"), etapa := str (r"AI"), comp := str (r"-")
    metric := some 7 }

def ctTable : List Row := [ctRowA, ctRowB]

/-- The column-presence check of index.py line 303: the error branch is taken
when `'REGIÃO' not in df_ideb.columns or 'REGIÃO' not in df_saeb.columns`,
i.e. when the region column is missing from at least one of the two tables. -/
def regiaoCheckError (idebCols saebCols : List Str) : Bool :=
  !(decide (str (r"REGIÃO") ∈ idebCols)) || !(decide (str (r"REGIÃO") ∈ saebCols))

/-- A raw spreadsheet cell before the post-load coercion: a numeric value, a
text value, or a missing value. -/
inductive Cell where
  | num (q : ℚ)
  | text (s : Str)
  | missing
deriving DecidableEq

def isDigitCh (c : Nat) : Bool := decide (48 ≤ c ∧ c ≤ 57)

/-- Numeric-literal parsing of a text cell by `pd.to_numeric`: digits with an
optional fractional part (the decimal value is exact: `ip.frac` is
`(ip * 10^k + frac) / 10^k`); anything else fails. -/
def parseUnsigned (s : Str) : Option ℚ :=
  let ip := s.takeWhile isDigitCh
  let rest := s.dropWhile isDigitCh
  if ip = [] then none
  else
    match rest with
    | [] => some (digitsVal ip : ℚ)
    | 46 :: frac =>
        if frac = [] then none
        else if frac.all isDigitCh then
          some (Rat.divInt (digitsVal ip * 10 ^ frac.length + digitsVal frac) (10 ^ frac.length))
        else none
    | _ => none

/-- `pd.to_numeric` on a text cell, with an optional leading minus sign. -/
def parseNum (s : Str) : Option ℚ :=
  match s with
  | 45 :: rest => (parseUnsigned rest).map (fun q => -q)
  | _ => parseUnsigned s

/-- `pd.to_numeric(col, errors='coerce')`: numbers pass through, parsable
text parses, everything else (non-numeric text, the empty string, missing)
becomes `NaN` (`none`). -/
def to_numeric_coerce : Cell → Option ℚ
  | Cell.num q => some q
  | Cell.text s => parseNum s
  | Cell.missing => none

/-- numpy `astype(int)` on a float: truncation toward zero. -/
def truncQ (q : ℚ) : ℤ :=
  if 0 ≤ q.num then q.num / (q.den : ℤ) else -((-q.num) / (q.den : ℤ))

def natToStrAux : Nat → Nat → Str
  | 0, _ => []
  | fuel + 1, n => if n < 10 then [48 + n] else natToStrAux fuel (n / 10) ++ [48 + n % 10]

/-- Decimal digit string of a natural number. -/
def natToStr (n : Nat) : Str := natToStrAux (n + 1) n

/-- Python `str(...)` of an integer: decimal digits, `-` sign if negative. -/
def intToStr (k : ℤ) : Str := if k < 0 then 45 :: natToStr k.natAbs else natToStr k.toNat

/-- The identifier/edition coercion of index.py lines 40-44:
`pd.to_numeric(col, errors='coerce').fillna(0).astype(int).astype(str)`. -/
def coerce_id_edicao (c : Cell) : Str := intToStr (truncQ ((to_numeric_coerce c).getD 0))

/-- The metric coercion of index.py lines 46-47:
`pd.to_numeric(col, errors='coerce')` — invalid values become missing. -/
def coerce_metric (c : Cell) : Option ℚ := to_numeric_coerce c

/-- The tab1 filter with its (absent) side effect on the source table made
explicit: boolean-mask selection plus `.copy()` builds new frames, so the
first component — the state of `df_ideb` after the tab1 code — is the
unchanged input. -/
def filtro_ideb_mut (escolaSel etapaSel : Str) (t : List Row) : List Row × List Row :=
  (t, filtroIdeb escolaSel etapaSel t)

/-- The tab2 filter with its (absent) side effect made explicit. -/
def filtro_saeb_mut (escolaSel etapaSel compSel : Str) (t : List Row) : List Row × List Row :=
  (t, filtroSaeb escolaSel etapaSel compSel t)

/-- The groupby aggregation with its (absent) side effect made explicit:
`groupby(...).agg(...)` builds a new frame. -/
def groupby_medias_mut (key : Row → Str) (t : List Row) : List Row × List MediaRow :=
  (t, groupbyMedias key t)

/-- Helper: positional description of `variacao_data`, phrased with `getElem?`
so it carries no side conditions. -/
theorem variacao_data_getElem (rows : List Row) (i : Nat) :
    (variacao_data rows)[i]? =
      match rows[i]?, rows[i + 1]? with
      | some a, some b => some (mkVariacao a b)
      | _, _ => none := by
  induction rows generalizing i with
  | nil => simp [variacao_data]
  | cons a tail ih =>
    cases tail with
    | nil => cases i <;> simp [variacao_data]
    | cons b t =>
      cases i with
      | zero => simp [variacao_data]
      | succ j =>
        have h := ih (i := j)
        simpa [variacao_data, List.getElem?_cons_succ] using h

/-- Helper: the delta list of an n-row table has n-1 records (0 for n = 0). -/
theorem variacao_data_length (rows : List Row) :
    (variacao_data rows).length = rows.length - 1 := by
  induction rows with
  | nil => rfl
  | cons a tail ih =>
    cases tail with
    | nil => rfl
    | cons b t =>
      have h := ih
      simp [variacao_data] at h ⊢
      omega

/-- C1: the delta loop over a filtered, edition-ordered table of n rows emits
exactly max(n-1, 0) records (0 or 1 row gives the empty list, not an error);
the record for the adjacent pair (i-1, i) carries the comparison label
"edition_i - edition_{i-1}", both editions, both metric values, and a
difference equal to metric[i] - metric[i-1], with a missing metric on either
side making the difference missing. -/
theorem c1_variacao_data_pairs (rows : List Row) :
    (variacao_data rows).length = rows.length - 1 ∧
    (rows.length ≤ 1 → variacao_data rows = []) ∧
    (∀ i anterior atual, rows[i]? = some anterior → rows[i + 1]? = some atual →
      (variacao_data rows)[i]? = some
        { comparacao := atual.edicao ++ str (r" - ") ++ anterior.edicao
          edicaoAtual := atual.edicao
          metricAtual := atual.metric
          edicaoAnterior := anterior.edicao
          metricAnterior := anterior.metric
          variacao := subOpt atual.metric anterior.metric }) ∧
    (∀ i anterior atual, rows[i]? = some anterior → rows[i + 1]? = some atual →
      (anterior.metric = none ∨ atual.metric = none) →
      ((variacao_data rows)[i]?).map (fun d => d.variacao) = some none) := by
  refine ⟨variacao_data_length rows, ?_, ?_, ?_⟩
  · intro h
    match rows, h with
    | [], _ => rfl
    | [a], _ => rfl
  · intro i anterior atual ha hb
    rw [variacao_data_getElem, ha, hb]
    rfl
  · intro i anterior atual ha hb hnone
    have hv : subOpt atual.metric anterior.metric = none := by
      rcases hnone with h | h
      · rw [h]; cases atual.metric <;> rfl
      · rw [h]; cases anterior.metric <;> rfl
    rw [variacao_data_getElem, ha, hb]
    simp [mkVariacao, hv]

/-- Witness for C1 at the spec scenario rows (editions 2017 and 2019) and at a
pair with a missing metric. -/
theorem c1_variacao_data_witness :
    variacao_data [demoRow2017] = [] ∧
    (variacao_data [demoRow2017, demoRow2019]).length = 1 ∧
    (variacao_data [demoRow2017, demoRow2019])[0]? = some
      { comparacao := demoRow2019.edicao ++ str (r" - ") ++ demoRow2017.edicao
        edicaoAtual := demoRow2019.edicao
        metricAtual := demoRow2019.metric
        edicaoAnterior := demoRow2017.edicao
        metricAnterior := demoRow2017.metric
        variacao := subOpt demoRow2019.metric demoRow2017.metric } ∧
    ((variacao_data [demoRowSemMetric, demoRow2019])[0]?).map (fun d => d.variacao) =
      some none :=
  ⟨(c1_variacao_data_pairs [demoRow2017]).2.1 (by decide),
   (c1_variacao_data_pairs [demoRow2017, demoRow2019]).1,
   (c1_variacao_data_pairs [demoRow2017, demoRow2019]).2.2.1 0 demoRow2017 demoRow2019 rfl rfl,
   (c1_variacao_data_pairs [demoRowSemMetric, demoRow2019]).2.2.2 0 demoRowSemMetric demoRow2019
     rfl rfl (Or.inl rfl)⟩

/-- C7: the classification of `formatar_variacao` is a pure function of the
sign of the (non-missing) value: positive gives the up arrow with green,
negative the down arrow with red, zero no marker with blue. -/
theorem c7_sign_classification (v : ℚ) :
    (0 < v → formatar_variacao (some v) = (str (r"▲"), str (r"green"))) ∧
    (v < 0 → formatar_variacao (some v) = (str (r"▼"), str (r"red"))) ∧
    (v = 0 → formatar_variacao (some v) = (str (r""), str (r"blue"))) := by
  refine ⟨fun h => ?_, fun h => ?_, fun h => ?_⟩
  · have h1 : pyGtZero (some v) = true := by simp [pyGtZero]; exact h
    simp [formatar_variacao, h1]
  · have h1 : pyGtZero (some v) = false := by simp [pyGtZero]; linarith
    have h2 : pyLtZero (some v) = true := by simp [pyLtZero]; exact h
    simp [formatar_variacao, h1, h2]
  · have h1 : pyGtZero (some v) = false := by simp [pyGtZero, h]
    have h2 : pyLtZero (some v) = false := by simp [pyLtZero, h]
    simp [formatar_variacao, h1, h2]

/-- Witness for C7 at the values 1, -1 and 0. -/
theorem c7_sign_classification_witness :
    formatar_variacao (some 1) = (str (r"▲"), str (r"green")) ∧
    formatar_variacao (some (-1)) = (str (r"▼"), str (r"red")) ∧
    formatar_variacao (some 0) = (str (r""), str (r"blue")) :=
  ⟨(c7_sign_classification 1).1 (by norm_num),
   (c7_sign_classification (-1)).2.1 (by norm_num),
   (c7_sign_classification 0).2.2 rfl⟩

/-- C10: a missing (`NaN`) delta falls through both comparisons of
`formatar_variacao` (both are false on `NaN`) and is rendered with no marker
and the color blue, not flagged as missing. -/
theorem c10_nan_flat : formatar_variacao none = (str (r""), str (r"blue")) := by
  rfl

/-- Helper: `lexLe` is total. -/
theorem lexLe_total : ∀ a b : Str, lexLe a b = true ∨ lexLe b a = true := by
  intro a
  induction a with
  | nil => intro b; left; rfl
  | cons c cs ih =>
    intro b
    cases b with
    | nil => right; rfl
    | cons d ds =>
      by_cases h1 : c < d
      · left; simp [lexLe, h1]
      · by_cases h2 : d < c
        · right; simp [lexLe, h2]
        · have hcd : c = d := by omega
          subst hcd
          rcases ih ds with h | h
          · left; simpa [lexLe, h1] using h
          · right; simpa [lexLe, h1] using h

/-- Helper: `lexLe` is transitive. -/
theorem lexLe_trans : ∀ a b c : Str, lexLe a b = true → lexLe b c = true → lexLe a c = true := by
  intro a
  induction a with
  | nil => intro b c _ _; cases c <;> rfl
  | cons x xs ih =>
    intro b c hab hbc
    cases b with
    | nil => simp [lexLe] at hab
    | cons y ys =>
      cases c with
      | nil => simp [lexLe] at hbc
      | cons z zs =>
        simp only [lexLe] at hab hbc ⊢
        by_cases h1 : x < y
        · by_cases h2 : y < z
          · have hxz : x < z := by omega
            simp [hxz]
          · by_cases h3 : z < y
            · simp [h2, h3] at hbc
            · have hxz : x < z := by omega
              simp [hxz]
        · by_cases h4 : y < x
          · simp [h1, h4] at hab
          · have hxy : x = y := by omega
            subst hxy
            rw [if_neg h1, if_neg h1] at hab
            by_cases h2 : x < z
            · simp [h2]
            · by_cases h3 : z < x
              · simp [h2, h3] at hbc
              · rw [if_neg h2, if_neg h3] at hbc
                rw [if_neg h2, if_neg h3]
                exact ih ys zs hab hbc

/-- Helper: membership in an ordered insertion. -/
theorem mem_insOrd {α : Type} (le : α → α → Bool) (a x : α) (l : List α) :
    x ∈ insOrd le a l ↔ x = a ∨ x ∈ l := by
  induction l with
  | nil => simp [insOrd]
  | cons b t ih =>
    by_cases h : le a b = true
    · simp only [insOrd, if_pos h, List.mem_cons]
    · simp only [insOrd, if_neg h, List.mem_cons, ih]
      tauto

/-- Helper: ordered insertion preserves sortedness (for a total transitive
comparison). -/
theorem pairwise_insOrd {α : Type} (le : α → α → Bool)
    (htot : ∀ x y, le x y = true ∨ le y x = true)
    (htrans : ∀ x y z, le x y = true → le y z = true → le x z = true)
    (a : α) (l : List α) (hl : List.Pairwise (fun x y => le x y = true) l) :
    List.Pairwise (fun x y => le x y = true) (insOrd le a l) := by
  induction l with
  | nil => simp [insOrd]
  | cons b t ih =>
    rw [List.pairwise_cons] at hl
    obtain ⟨hb, ht⟩ := hl
    by_cases h : le a b = true
    · rw [insOrd, if_pos h, List.pairwise_cons]
      refine ⟨?_, List.pairwise_cons.mpr ⟨hb, ht⟩⟩
      intro x hx
      rcases List.mem_cons.mp hx with rfl | hx
      · exact h
      · exact htrans a b x h (hb x hx)
    · have hba : le b a = true := (htot a b).resolve_left h
      rw [insOrd, if_neg h, List.pairwise_cons]
      refine ⟨?_, ih ht⟩
      intro x hx
      rcases (mem_insOrd le a x t).mp hx with rfl | hx
      · exact hba
      · exact hb x hx

/-- Helper: the comparison sort produces a sorted list. -/
theorem pairwise_sortOrd {α : Type} (le : α → α → Bool)
    (htot : ∀ x y, le x y = true ∨ le y x = true)
    (htrans : ∀ x y z, le x y = true → le y z = true → le x z = true)
    (l : List α) :
    List.Pairwise (fun x y => le x y = true) (sortOrd le l) := by
  induction l with
  | nil => simp [sortOrd]
  | cons a t ih => exact pairwise_insOrd le htot htrans a _ ih

/-- Helper: ordered insertion is a permutation of plain insertion. -/
theorem perm_insOrd {α : Type} (le : α → α → Bool) (a : α) (l : List α) :
    List.Perm (insOrd le a l) (a :: l) := by
  induction l with
  | nil => exact List.Perm.refl _
  | cons b t ih =>
    by_cases h : le a b = true
    · rw [insOrd, if_pos h]
    · rw [insOrd, if_neg h]
      exact (List.Perm.cons b ih).trans (List.Perm.swap a b t)

/-- Helper: the comparison sort permutes its input. -/
theorem perm_sortOrd {α : Type} (le : α → α → Bool) (l : List α) :
    List.Perm (sortOrd le l) l := by
  induction l with
  | nil => exact List.Perm.refl _
  | cons a t ih => exact (perm_insOrd le a (sortOrd le t)).trans (List.Perm.cons a ih)

/-- C2 counterexample: on a table whose editions are the digit strings "9"
and "10", the filter pipeline (which sorts with pandas string comparison)
returns the rows in an order that is NOT non-decreasing by the integer value
of the edition: "10" sorts before "9". -/
theorem c2_sort_not_int_counterexample :
    ¬ List.Pairwise (fun a b : Row => digitsVal a.edicao ≤ digitsVal b.edicao)
        (filtroIdeb (str (r"TODAS")) (str (r"AI")) [rowEd9, rowEd10]) := by
  decide

/-- C2 (amended): for every table and every selector combination, the rows of
the filter result are sorted ascending by the edition string under
lexicographic (codepoint) comparison — the order `sort_values` applies to a
string column — not by the integer value of the string. -/
theorem c2_sort_lex_sorted (escolaSel etapaSel compSel : Str) (t : List Row) :
    List.Pairwise (fun a b : Row => lexLe a.edicao b.edicao = true)
      (filtroIdeb escolaSel etapaSel t) ∧
    List.Pairwise (fun a b : Row => lexLe a.edicao b.edicao = true)
      (filtroSaeb escolaSel etapaSel compSel t) := by
  constructor <;>
    exact pairwise_sortOrd (fun (r s : Row) => lexLe r.edicao s.edicao)
      (fun (x y : Row) => lexLe_total x.edicao y.edicao)
      (fun (x y z : Row) => lexLe_trans x.edicao y.edicao z.edicao) _

/-- Helper: uppercasing a character twice is the same as once. -/
theorem upperCh_idem (c : Nat) : upperCh (upperCh c) = upperCh c := by
  unfold upperCh
  split_ifs with h1 h2 <;> omega

/-- Helper: uppercasing does not change whether a character is whitespace. -/
theorem isSp_upperCh (c : Nat) : isSp (upperCh c) = isSp c := by
  unfold upperCh isSp
  split_ifs with h
  · simp only [decide_eq_decide]
    omega
  · rfl

/-- Helper: `pyUpper` is idempotent. -/
theorem pyUpper_idem (s : Str) : pyUpper (pyUpper s) = pyUpper s := by
  unfold pyUpper
  rw [List.map_map]
  exact List.map_congr_left (fun a _ => upperCh_idem a)

/-- Helper: dropping leading whitespace commutes with uppercasing. -/
theorem dropWhile_isSp_map_upperCh (s : Str) :
    (s.map upperCh).dropWhile isSp = (s.dropWhile isSp).map upperCh := by
  induction s with
  | nil => rfl
  | cons c t ih =>
    by_cases h : isSp c = true
    · have h2 : isSp (upperCh c) = true := by rw [isSp_upperCh]; exact h
      simp [List.dropWhile_cons, h, h2, ih]
    · have h2 : isSp (upperCh c) = false := by rw [isSp_upperCh]; simpa using h
      simp [List.dropWhile_cons, h, h2]

/-- Helper: `pyStrip` commutes with `pyUpper`. -/
theorem pyStrip_pyUpper (s : Str) : pyStrip (pyUpper s) = pyUpper (pyStrip s) := by
  unfold pyStrip pyUpper
  rw [dropWhile_isSp_map_upperCh, ← List.map_reverse, dropWhile_isSp_map_upperCh,
    ← List.map_reverse]

/-- Helper: dropping leading whitespace is idempotent. -/
theorem dropWhile_isSp_idem (l : Str) : (l.dropWhile isSp).dropWhile isSp = l.dropWhile isSp := by
  induction l with
  | nil => rfl
  | cons c t ih =>
    by_cases h : isSp c = true
    · simp [List.dropWhile_cons, h, ih]
    · simp [List.dropWhile_cons, h]

/-- Helper: `pyStrip` is the trailing strip of the leading strip. -/
theorem pyStrip_eq_dwr (l : Str) : pyStrip l = dwr (l.dropWhile isSp) := rfl

/-- Helper: the leading strip and the trailing strip commute. -/
theorem dropWhile_dwr_comm (l : Str) : (dwr l).dropWhile isSp = dwr (l.dropWhile isSp) := by
  induction l with
  | nil => rfl
  | cons c t ih =>
    by_cases hc : isSp c = true
    · have hstep : (c :: t).dropWhile isSp = t.dropWhile isSp := by
        simp [List.dropWhile_cons, hc]
      rw [hstep]
      by_cases hr : t.reverse.dropWhile isSp = []
      · have hts : ∀ x ∈ t, isSp x = true := fun x hx =>
          (List.dropWhile_eq_nil_iff.mp hr) x (List.mem_reverse.mpr hx)
        have hdt : t.dropWhile isSp = [] := List.dropWhile_eq_nil_iff.mpr hts
        have h1 : dwr (c :: t) = [] := by
          unfold dwr
          rw [List.reverse_cons, List.dropWhile_append]
          simp [List.isEmpty_iff, hr, List.dropWhile_cons, hc]
        rw [h1, hdt]
        rfl
      · have h1 : dwr (c :: t) = c :: (t.reverse.dropWhile isSp).reverse := by
          unfold dwr
          rw [List.reverse_cons, List.dropWhile_append]
          rw [if_neg (by simp [List.isEmpty_iff, hr])]
          rw [List.reverse_append]
          rfl
        have h2 : dwr t = (t.reverse.dropWhile isSp).reverse := rfl
        rw [h1]
        have h3 : (c :: (t.reverse.dropWhile isSp).reverse).dropWhile isSp
            = ((t.reverse.dropWhile isSp).reverse).dropWhile isSp := by
          simp [List.dropWhile_cons, hc]
        rw [h3, ← h2, ih]
    · have hstep : (c :: t).dropWhile isSp = c :: t := by
        simp [List.dropWhile_cons, hc]
      rw [hstep]
      by_cases hr : t.reverse.dropWhile isSp = []
      · have h1 : dwr (c :: t) = [c] := by
          unfold dwr
          rw [List.reverse_cons, List.dropWhile_append]
          simp [List.isEmpty_iff, hr, List.dropWhile_cons, hc]
        rw [h1]
        simp [List.dropWhile_cons, hc]
      · have h1 : dwr (c :: t) = c :: (t.reverse.dropWhile isSp).reverse := by
          unfold dwr
          rw [List.reverse_cons, List.dropWhile_append]
          rw [if_neg (by simp [List.isEmpty_iff, hr])]
          rw [List.reverse_append]
          rfl
        rw [h1]
        simp [List.dropWhile_cons, hc]

/-- Helper: the trailing strip is idempotent. -/
theorem dwr_idem (l : Str) : dwr (dwr l) = dwr l := by
  unfold dwr
  rw [List.reverse_reverse, dropWhile_isSp_idem]

/-- Helper: `pyStrip` is idempotent. -/
theorem pyStrip_idem (l : Str) : pyStrip (pyStrip l) = pyStrip l := by
  rw [pyStrip_eq_dwr, pyStrip_eq_dwr, dropWhile_dwr_comm, dropWhile_isSp_idem, dwr_idem]

/-- Helper: stripping an already-normalized region value changes nothing. -/
theorem pyStrip_normalizaRegiao (s : Str) :
    pyStrip (normalizaRegiao s) = normalizaRegiao s := by
  unfold normalizaRegiao
  rw [pyStrip_pyUpper, pyStrip_idem]

/-- Helper: uppercasing an already-normalized region value changes nothing. -/
theorem pyUpper_normalizaRegiao (s : Str) :
    pyUpper (normalizaRegiao s) = normalizaRegiao s := by
  unfold normalizaRegiao
  rw [pyUpper_idem]

/-- Helper: the region normalization of one value is idempotent. -/
theorem normalizaRegiao_idem (s : Str) :
    normalizaRegiao (normalizaRegiao s) = normalizaRegiao s := by
  unfold normalizaRegiao
  rw [pyStrip_pyUpper, pyStrip_idem, pyUpper_idem]

/-- Helper: the row normalization is idempotent. -/
theorem normRow_idem (r : Row) : normRow (normRow r) = normRow r := by
  simp [normRow, normalizaRegiao_idem]

/-- C4: the region normalizer is idempotent — applying `padronizar_regioes`
twice returns the same table as applying it once. -/
theorem c4_padronizar_idempotent (t : List Row) :
    padronizar_regioes (padronizar_regioes t) = padronizar_regioes t := by
  show ((((t.map normRow).filter keepRegiao).map normRow).filter keepRegiao)
      = (t.map normRow).filter keepRegiao
  have hmap : ((t.map normRow).filter keepRegiao).map normRow
      = (t.map normRow).filter keepRegiao := by
    have h : ∀ a ∈ (t.map normRow).filter keepRegiao, normRow a = id a := by
      intro a ha
      obtain ⟨x, _, rfl⟩ := List.mem_map.mp (List.mem_of_mem_filter ha)
      exact normRow_idem x
    rw [List.map_congr_left h, List.map_id]
  rw [hmap, List.filter_filter]
  simp [Bool.and_self]

/-- C5: after normalization every remaining region value is upper-cased,
trimmed and different from `"NAN"` and from the empty string; in particular
a row whose region is `" nan "` (or its mixed-case variant `" nAn "`) is
excluded, because trim and uppercase produce `"NAN"`. -/
theorem c5_region_normal_invariant (t : List Row) :
    (∀ r ∈ padronizar_regioes t,
        pyStrip r.regiao = r.regiao ∧ pyUpper r.regiao = r.regiao ∧
        r.regiao ≠ str (r"NAN") ∧ r.regiao ≠ str (r"")) ∧
    padronizar_regioes [nanRowSpaces] = [] ∧
    padronizar_regioes [nanRowMixed] = [] := by
  refine ⟨?_, by decide, by decide⟩
  intro r hr
  obtain ⟨hmem, hk⟩ := List.mem_filter.mp hr
  obtain ⟨x, _, rfl⟩ := List.mem_map.mp hmem
  simp only [keepRegiao, Bool.not_eq_true', Bool.or_eq_false_iff, beq_eq_false_iff_ne,
    ne_eq] at hk
  refine ⟨?_, ?_, hk.1.1, hk.1.2⟩
  · show pyStrip (normRow x).regiao = (normRow x).regiao
    simp [normRow, pyStrip_normalizaRegiao]
  · show pyUpper (normRow x).regiao = (normRow x).regiao
    simp [normRow, pyUpper_normalizaRegiao]

/-- Witness for C5: the row with region `" sul "` survives normalization as
`"SUL"`, and the invariant holds of it. -/
theorem c5_region_normal_witness :
    pyStrip sulRowNorm.regiao = sulRowNorm.regiao ∧
    pyUpper sulRowNorm.regiao = sulRowNorm.regiao ∧
    sulRowNorm.regiao ≠ str (r"NAN") ∧ sulRowNorm.regiao ≠ str (r"") :=
  (c5_region_normal_invariant [sulRow]).1 sulRowNorm (by decide)

/-- Helper: the key column of the aggregation result is the sorted
deduplication of the key column of the input. -/
theorem groupbyMedias_chave (key : Row → Str) (t : List Row) :
    (groupbyMedias key t).map (fun m => m.chave) = sortOrd lexLe ((t.map key).dedup) := by
  unfold groupbyMedias
  rw [List.map_map]
  have h : ∀ a ∈ sortOrd lexLe ((t.map key).dedup),
      ((fun (m : MediaRow) => m.chave) ∘ (fun k =>
        ({ chave := k
           media := (meanOpt ((t.filter (fun r => key r == k)).map (fun r => r.metric))).map round2
           qtdEscolas := ((t.filter (fun r => key r == k)).map (fun r => r.escola)).dedup.length }
             : MediaRow))) a = id a := fun a _ => rfl
  rw [List.map_congr_left h, List.map_id]

/-- Helper: evaluation of the aggregator on the spec scenario table. -/
theorem groupbyMedias_demo :
    groupbyMedias (fun r => r.regiao) demoTable = [demoNorteMedia, demoSulMedia] := by
  have hk : sortOrd lexLe ((demoTable.map (fun r => r.regiao)).dedup)
      = [str (r"NORTE"), str (r"SUL")] := by decide
  have hf1 : (demoTable.filter (fun r => r.regiao == str (r"NORTE"))).map (fun r => r.metric)
      = [some 6, some 7] := by decide
  have hf2 : (demoTable.filter (fun r => r.regiao == str (r"SUL"))).map (fun r => r.metric)
      = [some 5] := by decide
  have e1 : meanOpt [some (6 : ℚ), some 7] = some (Rat.divInt 13 2) := by
    have hfm : ([some (6 : ℚ), some 7].filterMap id) = [6, 7] := by decide
    simp only [meanOpt, hfm]
    norm_num [List.sum_cons, List.sum_nil, Rat.divInt]
  have e2 : meanOpt [some (5 : ℚ)] = some 5 := by
    have hfm : ([some (5 : ℚ)].filterMap id) = [5] := by decide
    simp only [meanOpt, hfm]
    norm_num [List.sum_cons, List.sum_nil]
  have r1 : round2 (Rat.divInt 13 2) = Rat.divInt 13 2 := by decide
  have r2 : round2 5 = 5 := by decide
  unfold groupbyMedias
  rw [hk]
  simp only [List.map_cons, List.map_nil]
  rw [hf1, hf2, e1, e2]
  simp only [Option.map_some']
  rw [r1, r2]
  decide

/-- C3 counterexample: on a table with two rows in the same region whose
school identifiers (`INEP` "1" and "2") are distinct but whose school names
coincide, the aggregation reports 1 school — `nunique` counts distinct
`ESCOLA` names, not distinct identifiers, of which there are 2. -/
theorem c3_schools_counterexample :
    (groupbyMedias (fun r => r.regiao) ctTable).map (fun m => m.qtdEscolas) = [1] ∧
    ((ctTable.map (fun r => r.inep)).dedup.length = 2) := by
  decide

/-- C3 (amended): grouping a filtered table by region (or edition) yields
exactly one row per distinct group value, carrying the mean of the metric
column rounded to 2 decimal places and the count of distinct school NAMES
(the `ESCOLA` column, which is what `pd.Series.nunique` is applied to — not
the school identifiers); on the scenario table (two NORTE rows with values
6.0 and 7.0 at distinctly named schools, one SUL row with value 5.0) the
result is [{NORTE, 6.5, 2}, {SUL, 5.0, 1}]. -/
theorem c3_groupby_medias (key : Row → Str) (t : List Row) :
    ((groupbyMedias key t).map (fun m => m.chave)).Nodup ∧
    (∀ k, k ∈ (groupbyMedias key t).map (fun m => m.chave) ↔ k ∈ t.map key) ∧
    (∀ m, m ∈ groupbyMedias key t →
        m.media = (meanOpt ((t.filter (fun r => key r == m.chave)).map
          (fun r => r.metric))).map round2 ∧
        m.qtdEscolas = ((t.filter (fun r => key r == m.chave)).map
          (fun r => r.escola)).dedup.length) ∧
    groupbyMedias (fun r => r.regiao) demoTable = [demoNorteMedia, demoSulMedia] := by
  refine ⟨?_, ?_, ?_, groupbyMedias_demo⟩
  · rw [groupbyMedias_chave]
    exact (perm_sortOrd lexLe _).symm.nodup (List.nodup_dedup _)
  · intro k
    rw [groupbyMedias_chave, (perm_sortOrd lexLe _).mem_iff, List.mem_dedup]
  · intro m hm
    obtain ⟨k, _, rfl⟩ := List.mem_map.mp hm
    exact ⟨rfl, rfl⟩

/-- Witness for C3 at the scenario table and its NORTE result row. -/
theorem c3_groupby_medias_witness :
    demoNorteMedia.media = (meanOpt ((demoTable.filter
      (fun r => r.regiao == demoNorteMedia.chave)).map (fun r => r.metric))).map round2 ∧
    demoNorteMedia.qtdEscolas = ((demoTable.filter
      (fun r => r.regiao == demoNorteMedia.chave)).map (fun r => r.escola)).dedup.length :=
  (c3_groupby_medias (fun r => r.regiao) demoTable).2.2.1 demoNorteMedia
    (by rw [groupbyMedias_demo]; exact List.mem_cons_self _ _)

/-- C8 counterexample: with the region column present in the IDEB table and
absent from the SAEB table, the error branch is taken although the column is
not absent from both tables. -/
theorem c8_error_counterexample :
    regiaoCheckError [str (r"REGIÃO")] [] = true ∧
    ¬ (str (r"REGIÃO") ∉ [str (r"REGIÃO")] ∧ str (r"REGIÃO") ∉ ([] : List Str)) := by
  decide

/-- C8 (amended): in region-analysis mode the missing-column error is raised
exactly when the region column is absent from AT LEAST ONE of the two tables
(the check is a disjunction of the two absences, not a conjunction); the
branch surfaces a message and stops the script instead of raising. -/
theorem c8_error_iff (idebCols saebCols : List Str) :
    regiaoCheckError idebCols saebCols = true ↔
      (str (r"REGIÃO") ∉ idebCols ∨ str (r"REGIÃO") ∉ saebCols) := by
  simp [regiaoCheckError]

/-- C6: after the post-load coercion every identifier/edition value is the
decimal string of an integer; a source value that does not parse as a number
(non-numeric text, the empty string, or a missing value) coerces to exactly
the string "0" in the identifier/edition columns, while in the metric column
it becomes missing, not zero. -/
theorem c6_coercion :
    (∀ c : Cell, to_numeric_coerce c = none →
        coerce_id_edicao c = str (r"0") ∧ coerce_metric c = none) ∧
    to_numeric_coerce (Cell.text (str (r""))) = none ∧
    to_numeric_coerce Cell.missing = none ∧
    (∀ c : Cell, ∃ k : ℤ, coerce_id_edicao c = intToStr k) := by
  refine ⟨?_, by decide, rfl, fun c => ⟨truncQ ((to_numeric_coerce c).getD 0), rfl⟩⟩
  intro c h
  constructor
  · unfold coerce_id_edicao
    rw [h]
    decide
  · unfold coerce_metric
    exact h

/-- Witness for C6 at the non-numeric text cell "abc". -/
theorem c6_coercion_witness :
    coerce_id_edicao (Cell.text (str (r"abc"))) = str (r"0") ∧
    coerce_metric (Cell.text (str (r"abc"))) = none :=
  c6_coercion.1 (Cell.text (str (r"abc"))) (by decide)

/-- C9 counterexample: `padronizar_regioes` does not leave its argument
unchanged — the region-column assignment happens in the dataframe passed in,
not only in a working copy: after the call on a one-row table with region
`" sul "` the argument object differs from the original. -/
theorem c9_mutation_counterexample :
    (padronizar_regioes_mut [sulRow]).1 ≠ [sulRow] := by decide

/-- C9 (amended): the filtering and aggregation operations leave the source
table unchanged, but the region-normalization pass mutates the loaded table
itself rather than only a working copy: after the call the argument has the
same number of rows, every non-region column of every row is unchanged, and
the region column holds the trimmed upper-cased original value; the region
view then uses the row-filtered returned value. -/
theorem c9_mutation_frame (escolaSel etapaSel compSel : Str) (key : Row → Str) (t : List Row) :
    (filtro_ideb_mut escolaSel etapaSel t).1 = t ∧
    (filtro_saeb_mut escolaSel etapaSel compSel t).1 = t ∧
    (groupby_medias_mut key t).1 = t ∧
    (padronizar_regioes_mut t).1.length = t.length ∧
    (∀ i : Nat,
      ((padronizar_regioes_mut t).1[i]?).map (fun r => r.inep) = (t[i]?).map (fun r => r.inep) ∧
      ((padronizar_regioes_mut t).1[i]?).map (fun r => r.escola) = (t[i]?).map (fun r => r.escola) ∧
      ((padronizar_regioes_mut t).1[i]?).map (fun r => r.edicao) = (t[i]?).map (fun r => r.edicao) ∧
      ((padronizar_regioes_mut t).1[i]?).map (fun r => r.etapa) = (t[i]?).map (fun r => r.etapa) ∧
      ((padronizar_regioes_mut t).1[i]?).map (fun r => r.comp) = (t[i]?).map (fun r => r.comp) ∧
      ((padronizar_regioes_mut t).1[i]?).map (fun r => r.metric) = (t[i]?).map (fun r => r.metric) ∧
      ((padronizar_regioes_mut t).1[i]?).map (fun r => r.regiao)
        = (t[i]?).map (fun r => pyUpper (pyStrip r.regiao))) ∧
    (padronizar_regioes_mut t).2 = (padronizar_regioes_mut t).1.filter keepRegiao := by
  refine ⟨rfl, rfl, rfl, by simp [padronizar_regioes_mut], ?_, rfl⟩
  intro i
  refine ⟨?_, ?_, ?_, ?_, ?_, ?_, ?_⟩ <;>
    · show ((t.map normRow)[i]?).map _ = _
      rw [List.getElem?_map]
      cases t[i]? <;> simp [normRow, normalizaRegiao]

end RelatoriosIdeb
